import Mathlib

/-!
# Verification of the Phantom communicator protocol layer

A shallow embedding of `communicator.py` from the `rv_seminarska` repository:
the packet codec (fixed 32-byte frames of four big-endian IEEE-754 doubles),
the confirm-on-send policy of `send_packet`, the retry loop of
`send_trajectory`, the receiver path of `_receive`/`_receiver`, and the
connect/disconnect lifecycle of `PhantomCommunicator`.

Modelling conventions:
* A double is represented by its 64-bit pattern, a `Nat < 2 ^ 64`.  The wire
  codec (`struct.pack`/`struct.unpack` with format `">4d"`) moves those bit
  patterns to and from big-endian bytes without interpreting them, so this
  captures the byte-level behaviour exactly.
* Storing a small integer (a packet-kind code, a trajectory length) into a
  numpy double array converts it to a double; `floatBits` computes the bit
  pattern of that double.  The formula is exact for integers below `2 ^ 53`,
  which covers every value the program stores this way.
* Queues are lists; the head of the inbound queue is the next packet the
  blocking `receive` would deliver within its timeout, and an empty queue
  models a timeout (no reply arrived in time).
* `send` enqueues on the outbound queue, which the sender thread drains in
  FIFO order; the list of packets a function appends to the outbound side is
  therefore exactly the transmitted trace, in transmission order.
-/

set_option maxRecDepth 4000

namespace RV

/-- Number of double fields per frame: `PhantomCommunicator.PACKET_SIZE = 4`. -/
def PACKET_SIZE : Nat := 4

/-- The retry budget `Communicator.COMMUNICATION_RETRIES = 3`. -/
def COMMUNICATION_RETRIES : Nat := 3

/-- Bytes of one frame on the wire: four 8-byte big-endian doubles. -/
def FRAME_BYTES : Nat := 32

/-- Fuel-bounded binary logarithm, structurally recursive so that concrete
instances reduce inside the kernel. -/
def log2fuel : Nat → Nat → Nat
  | 0, _ => 0
  | fuel + 1, n => if 2 ≤ n then log2fuel fuel (n / 2) + 1 else 0

/-- The floor binary logarithm (with `natLog2 0 = 0`), agreeing with `Nat.log2`. -/
def natLog2 (n : Nat) : Nat := log2fuel n n

theorem log2fuel_eq_log2 (fuel n : Nat) (h : n ≤ fuel) :
    log2fuel fuel n = Nat.log2 n := by
  induction fuel generalizing n with
  | zero => interval_cases n; simp [log2fuel, Nat.log2]
  | succ k ih =>
    rw [log2fuel, Nat.log2]
    by_cases h2 : 2 ≤ n
    · rw [if_pos h2, if_pos h2, ih _ (by omega)]
    · rw [if_neg h2, if_neg h2]

theorem natLog2_eq_log2 (n : Nat) : natLog2 n = Nat.log2 n :=
  log2fuel_eq_log2 n n le_rfl

/-- IEEE-754 binary64 bit pattern of the natural number `v`, as produced when
the Python code stores an integer into a `np.double` array
(`packet[0] = packet_type.value`, `packet[0] = length`).  For `v = 0` the
pattern is `0`; otherwise with `k = ⌊log₂ v⌋` the biased exponent is
`1023 + k` and the mantissa field holds the bits of `v` below the leading
one, left-aligned.  Exact (no rounding) for every `v < 2 ^ 53`, which covers
every value the program converts this way (kind codes up to `0xF3` and
trajectory lengths). -/
def floatBits (v : Nat) : Nat :=
  if v = 0 then 0
  else (1023 + natLog2 v) * 2 ^ 52 + (v - 2 ^ natLog2 v) * 2 ^ (52 - natLog2 v)

/-- The enumeration `PhantomCommunicator.PacketTypes`. -/
inductive PacketTypes where
  | START
  | STOP
  | BALL_POSITION
  | TRAJECTORY_START
  | TRAJECTORY_END
  | TRAJECTORY_SAMPLE
deriving DecidableEq

/-- The wire codes of `PhantomCommunicator.PacketTypes`. -/
def PacketTypes.value : PacketTypes → Nat
  | .START => 0xE0
  | .STOP => 0xE1
  | .BALL_POSITION => 0xF0
  | .TRAJECTORY_START => 0xF1
  | .TRAJECTORY_END => 0xF2
  | .TRAJECTORY_SAMPLE => 0xF3

/-- One decoded packet: the 4-tuple of doubles `struct.unpack(">4d", ...)`
returns, each double given by its 64-bit pattern. -/
structure Packet where
  f0 : Nat
  f1 : Nat
  f2 : Nat
  f3 : Nat
deriving DecidableEq

/-- The frame `send_packet` builds: `packet = np.zeros(4)`, then
`packet[0] = packet_type.value` (the kind code converted to a double), then
`packet[1:] = data` when a payload (always three doubles at the call sites)
was given.  `none` models `data=None`, leaving the zero fill. -/
def mkPacket (ptype : PacketTypes) (data : Option (Nat × Nat × Nat)) : Packet :=
  match data with
  | none => ⟨floatBits ptype.value, 0, 0, 0⟩
  | some (x, y, z) => ⟨floatBits ptype.value, x, y, z⟩

/-- Big-endian 8-byte serialization of one double's bit pattern, as
`struct.pack(">...d")` emits it. -/
def bytesOfDouble (b : Nat) : List Nat :=
  [b / 2 ^ 56 % 256, b / 2 ^ 48 % 256, b / 2 ^ 40 % 256, b / 2 ^ 32 % 256,
   b / 2 ^ 24 % 256, b / 2 ^ 16 % 256, b / 2 ^ 8 % 256, b % 256]

/-- Reassemble a big-endian byte group into a double's bit pattern, as
`struct.unpack` does. -/
def doubleOfBytes (bs : List Nat) : Nat :=
  bs.foldl (fun a c => a * 256 + c) 0

/-- Model of `struct.pack` with format `">4d"` in `_send`: the 32-byte frame of a packet. -/
def pack (p : Packet) : List Nat :=
  bytesOfDouble p.f0 ++ bytesOfDouble p.f1 ++ bytesOfDouble p.f2 ++ bytesOfDouble p.f3

/-- Model of `struct.unpack` with format `">4d"` in `_receive`: succeeds only on exactly
32 bytes (otherwise `struct.error`, which the code catches, modelled as
`none`), splitting them into four big-endian doubles. -/
def unpack (bs : List Nat) : Option Packet :=
  if bs.length = FRAME_BYTES then
    some ⟨doubleOfBytes (bs.take 8),
          doubleOfBytes ((bs.drop 8).take 8),
          doubleOfBytes (((bs.drop 8).drop 8).take 8),
          doubleOfBytes ((((bs.drop 8).drop 8).drop 8).take 8)⟩
  else none

/-- A packet is four genuine doubles: each field fits in 64 bits. -/
def Packet.wf (p : Packet) : Prop :=
  p.f0 < 2 ^ 64 ∧ p.f1 < 2 ^ 64 ∧ p.f2 < 2 ^ 64 ∧ p.f3 < 2 ^ 64

instance (p : Packet) : Decidable p.wf := by
  unfold Packet.wf; infer_instance

theorem doubleOfBytes_bytesOfDouble (b : Nat) (hb : b < 2 ^ 64) :
    doubleOfBytes (bytesOfDouble b) = b := by
  simp only [bytesOfDouble, doubleOfBytes, List.foldl]
  omega

theorem length_bytesOfDouble (b : Nat) : (bytesOfDouble b).length = 8 := by
  simp [bytesOfDouble]

/-! ## Session layer: `send_packet` over the queues

`Communicator.send` enqueues the frame on the outbound queue (drained FIFO by
the sender thread, so the enqueue order is the transmitted order) and, when a
confirmation is requested, `Communicator.receive(block=True, timeout=...)`
dequeues the next inbound packet or yields `None` on timeout.  The inbound
queue is a `List Packet`; an empty list models no reply within the timeout. -/

/-- Model of `Communicator.receive`: pop the head of the inbound queue, `none` when
nothing arrives (queue `Empty` at the timeout). -/
def receive (q : List Packet) : Option Packet × List Packet :=
  match q with
  | [] => (none, [])
  | p :: rest => (some p, rest)

/-- Model of `PhantomCommunicator.send_packet`: build the frame, enqueue it outbound,
and when `confirm` is set dequeue one reply and compare its field 0 with the
kind's wire code (Python compares the decoded double with the integer code;
the integer codes have unique double representations, so the comparison is
bit-pattern equality with `floatBits`).  Returns (success, remaining inbound
queue, packets handed to the transport). -/
def send_packet (ptype : PacketTypes) (data : Option (Nat × Nat × Nat))
    (confirm : Bool) (q : List Packet) : Bool × List Packet × List Packet :=
  let packet := mkPacket ptype data
  if confirm then
    match receive q with
    | (none, q') => (false, q', [packet])
    | (some c, q') =>
        (if c.f0 = floatBits ptype.value then true else false, q', [packet])
  else (true, q, [packet])

/-! ## `send_trajectory` and its helpers -/

/-- Model of `PhantomCommunicator._send_trajectory_start`: a `TRAJECTORY_START` packet
whose payload is `np.zeros(3)` with slot 0 set to the trajectory length,
sent with `confirm=True`. -/
def send_trajectory_start (length : Nat) (q : List Packet) :
    Bool × List Packet × List Packet :=
  send_packet .TRAJECTORY_START (some (floatBits length, 0, 0)) true q

/-- Model of `PhantomCommunicator._send_trajectory_end`: `TRAJECTORY_END`, no payload,
`confirm=True`. -/
def send_trajectory_end (q : List Packet) : Bool × List Packet × List Packet :=
  send_packet .TRAJECTORY_END none true q

/-- Model of `PhantomCommunicator._send_trajectory_sample`: one unconfirmed
`TRAJECTORY_SAMPLE` carrying the sample's three coordinates. -/
def send_trajectory_sample (s : Nat × Nat × Nat) : Packet :=
  mkPacket .TRAJECTORY_SAMPLE (some s)

/-- The body of `send_trajectory`'s `for retry in range(COMMUNICATION_RETRIES)`
loop, with the remaining iteration count as fuel: send a confirmed
`TRAJECTORY_START` (on failure `continue`), stream every sample unconfirmed,
send a confirmed `TRAJECTORY_END` (on success `return True`, on failure loop).
Falling out of the loop returns `False`. -/
def send_trajectory_loop (traj : List (Nat × Nat × Nat)) :
    Nat → List Packet → Bool × List Packet × List Packet
  | 0, q => (false, q, [])
  | n + 1, q =>
    let (okStart, q1, t1) := send_trajectory_start traj.length q
    if okStart then
      let samples := traj.map send_trajectory_sample
      let (okEnd, q2, t2) := send_trajectory_end q1
      if okEnd then (true, q2, t1 ++ samples ++ t2)
      else
        let (ok, q3, t3) := send_trajectory_loop traj n q2
        (ok, q3, t1 ++ samples ++ t2 ++ t3)
    else
      let (ok, q3, t3) := send_trajectory_loop traj n q1
      (ok, q3, t1 ++ t3)

/-- Model of `PhantomCommunicator.send_trajectory`: reject trajectories of fewer than
3 points before any I/O, otherwise run the retry loop. -/
def send_trajectory (traj : List (Nat × Nat × Nat)) (q : List Packet) :
    Bool × List Packet × List Packet :=
  if traj.length < 3 then (false, q, [])
  else send_trajectory_loop traj COMMUNICATION_RETRIES q

/-! ## Receiver path and lifecycle state -/

/-- What the transport hands `_receive` on one call: a datagram of raw bytes,
or a `ConnectionResetError` raised by `recv`. -/
inductive RecvEvent where
  | datagram (bytes : List Nat)
  | reset

/-- Model of the `PhantomCommunicator` connection state: peer fields, the two UDP socket
handles (`true` = open), the base class's `running` flag, and a count of how
many times the worker threads were started (to observe duplicate starts). -/
structure PhantomState where
  ip : Option Nat
  portSend : Option Nat
  portReceive : Option Nat
  sockSend : Bool
  sockReceive : Bool
  running : Bool
  threadStarts : Nat
deriving DecidableEq

/-- Model of `PhantomCommunicator.disconnect`: `super().disconnect()` (which clears
`running` and joins the threads when running, and is a no-op otherwise),
then unconditionally close and clear both sockets. -/
def PhantomState.disconnect (s : PhantomState) : PhantomState :=
  let s1 := if s.running then { s with running := false } else s
  { s1 with sockSend := false, sockReceive := false }

/-- Model of `PhantomCommunicator.connect`: overwrite each
connection field for which an argument was supplied, return early when either
socket is already open, otherwise open both sockets and run
`Communicator.connect` (start the threads unless already running). -/
def PhantomState.connect (s : PhantomState)
    (ip portSend portReceive : Option Nat) : PhantomState :=
  let s1 : PhantomState :=
    { s with
      ip := match ip with | some v => some v | none => s.ip
      portSend := match portSend with | some v => some v | none => s.portSend
      portReceive :=
        match portReceive with | some v => some v | none => s.portReceive }
  if s1.sockSend || s1.sockReceive then s1
  else
    let s2 := { s1 with sockSend := true, sockReceive := true }
    if s2.running then s2
    else { s2 with running := true, threadStarts := s2.threadStarts + 1 }

/-- How one call to `_receive` ends on the receiver thread: it returns a
value, or an exception escapes it (killing the `_receiver` loop). -/
inductive RecvOutcome where
  | returns (p : Option Packet)
  | raises
deriving DecidableEq

/-- Model of `PhantomCommunicator._receive`: `None` when the receive socket is
absent; on a datagram, `struct.unpack` (a `struct.error` is caught, printed
and turned into `None`).  On `ConnectionResetError` the handler calls
`self.disconnect()`, which runs on the receiver thread itself: if `running`
is set, `Communicator.disconnect` first clears it and then calls
`self._thread_receiver.join()` — a join of the current thread, which raises
`RuntimeError`.  That exception escapes the `except ConnectionResetError`
handler, so the socket-closing code in `PhantomCommunicator.disconnect` never
runs, `return None` is never reached, and the error propagates out of
`_receive`.  Only when `running` is already clear does `disconnect` return
promptly (no join), close the sockets, and let `_receive` return `None`. -/
def PhantomState.receiveRaw (s : PhantomState) (ev : RecvEvent) :
    PhantomState × RecvOutcome :=
  if s.sockReceive = false then (s, .returns none)
  else
    match ev with
    | .datagram bs => (s, .returns (unpack bs))
    | .reset =>
        if s.running then ({ s with running := false }, .raises)
        else (s.disconnect, .returns none)

/-- One iteration of the `Communicator._receiver` thread loop: a `None` read
is skipped (`continue`), anything else is appended to the inbound queue. -/
def receiverStep (q : List Packet) (r : Option Packet) : List Packet :=
  match r with
  | none => q
  | some p => q ++ [p]

/-- Number of packets of kind `k` (by wire code in field 0) in a trace. -/
def countKind (k : PacketTypes) (trace : List Packet) : Nat :=
  trace.countP (fun p => p.f0 = floatBits k.value)

/-- The payload argument, when present, consists of three doubles. -/
def payloadWF : Option (Nat × Nat × Nat) → Prop
  | none => True
  | some (x, y, z) => x < 2 ^ 64 ∧ y < 2 ^ 64 ∧ z < 2 ^ 64

instance : (d : Option (Nat × Nat × Nat)) → Decidable (payloadWF d)
  | none => .isTrue trivial
  | some (x, y, z) =>
      inferInstanceAs (Decidable (x < 2 ^ 64 ∧ y < 2 ^ 64 ∧ z < 2 ^ 64))

/-- The `TRAJECTORY_START` frame `_send_trajectory_start` builds for a
trajectory of `n` samples: field 1 carries `n` (as a double). -/
def startPacket (n : Nat) : Packet :=
  mkPacket .TRAJECTORY_START (some (floatBits n, 0, 0))

/-- The payload-free `TRAJECTORY_END` frame. -/
def endPacket : Packet := mkPacket .TRAJECTORY_END none

/-- Whether the confirmation wait of a confirm-requiring send succeeds on
inbound queue `q`: a reply must be queued and its field 0 must equal the
expected kind's wire code. -/
def confirmOK (K : PacketTypes) (q : List Packet) : Bool :=
  match q with
  | [] => false
  | c :: _ => if c.f0 = floatBits K.value then true else false

/-! ## Claim-shaped description of the retry policy (C3)

These two definitions transcribe the clauses of the specification sentence
on `send_trajectory`, to be compared with the code-shaped
`send_trajectory_loop`. -/

/-- One whole-trajectory attempt as the specification describes it: send
`TRAJECTORY_START` carrying the sample count with confirmation required; on
failure the attempt fails there; on success stream every sample as an
unconfirmed `TRAJECTORY_SAMPLE`, then send `TRAJECTORY_END` with confirmation
required, the attempt succeeding exactly when the end-confirmation does. -/
def attemptSpec (traj : List (Nat × Nat × Nat)) (q : List Packet) :
    Bool × List Packet × List Packet :=
  let (okStart, q1, t1) :=
    send_packet .TRAJECTORY_START (some (floatBits traj.length, 0, 0)) true q
  if okStart then
    let (okEnd, q2, t2) := send_packet .TRAJECTORY_END none true q1
    (okEnd, q2, t1 ++ traj.map send_trajectory_sample ++ t2)
  else (false, q1, t1)

/-- The retry policy as the specification describes it: up to `n`
whole-trajectory attempts, a failed attempt retries the whole trajectory
from the start, success is returned as soon as one attempt succeeds (no
further retries occur), and failure exactly when all attempts are
exhausted. -/
def retrySpec (traj : List (Nat × Nat × Nat)) :
    Nat → List Packet → Bool × List Packet × List Packet
  | 0, q => (false, q, [])
  | n + 1, q =>
    let (ok, q1, t1) := attemptSpec traj q
    if ok then (true, q1, t1)
    else
      let r := retrySpec traj n q1
      (r.1, r.2.1, t1 ++ r.2.2)

/-! ## Helper lemmas -/

theorem floatBits_value_lt (K : PacketTypes) : floatBits K.value < 2 ^ 64 := by
  cases K <;> decide

theorem mkPacket_wf (K : PacketTypes) (d : Option (Nat × Nat × Nat))
    (hd : payloadWF d) : (mkPacket K d).wf := by
  rcases d with _ | ⟨x, y, z⟩
  · exact ⟨floatBits_value_lt K, by norm_num [mkPacket], by norm_num [mkPacket],
      by norm_num [mkPacket]⟩
  · obtain ⟨hx, hy, hz⟩ := hd
    exact ⟨floatBits_value_lt K, hx, hy, hz⟩

theorem unpack_pack (p : Packet) (h : p.wf) : unpack (pack p) = some p := by
  obtain ⟨f0, f1, f2, f3⟩ := p
  obtain ⟨h0, h1, h2, h3⟩ := h
  have hlen : (pack ⟨f0, f1, f2, f3⟩).length = FRAME_BYTES := by
    simp [pack, length_bytesOfDouble, FRAME_BYTES]
  rw [unpack, if_pos hlen]
  have hsplit : pack ⟨f0, f1, f2, f3⟩
      = bytesOfDouble f0
        ++ (bytesOfDouble f1 ++ (bytesOfDouble f2 ++ bytesOfDouble f3)) := rfl
  rw [hsplit,
    List.take_left' (length_bytesOfDouble f0),
    List.drop_left' (length_bytesOfDouble f0),
    List.take_left' (length_bytesOfDouble f1),
    List.drop_left' (length_bytesOfDouble f1),
    List.take_left' (length_bytesOfDouble f2),
    List.drop_left' (length_bytesOfDouble f2),
    List.take_of_length_le (by rw [length_bytesOfDouble]),
    doubleOfBytes_bytesOfDouble f0 h0, doubleOfBytes_bytesOfDouble f1 h1,
    doubleOfBytes_bytesOfDouble f2 h2, doubleOfBytes_bytesOfDouble f3 h3]

theorem send_packet_confirm_eq (K : PacketTypes) (d : Option (Nat × Nat × Nat))
    (q : List Packet) :
    send_packet K d true q = (confirmOK K q, q.tail, [mkPacket K d]) := by
  rcases q with _ | ⟨c, rest⟩ <;> simp [send_packet, receive, confirmOK]

theorem loop_start_fail (traj : List (Nat × Nat × Nat)) (n : Nat)
    (q : List Packet) (h : confirmOK .TRAJECTORY_START q = false) :
    send_trajectory_loop traj (n + 1) q
      = ((send_trajectory_loop traj n q.tail).1,
         (send_trajectory_loop traj n q.tail).2.1,
         startPacket traj.length :: (send_trajectory_loop traj n q.tail).2.2) := by
  rw [send_trajectory_loop, send_trajectory_start, send_packet_confirm_eq]
  simp [h, startPacket]

theorem loop_start_ok_end_ok (traj : List (Nat × Nat × Nat)) (n : Nat)
    (q : List Packet)
    (hs : confirmOK .TRAJECTORY_START q = true)
    (he : confirmOK .TRAJECTORY_END q.tail = true) :
    send_trajectory_loop traj (n + 1) q
      = (true, q.tail.tail,
         startPacket traj.length
           :: (traj.map send_trajectory_sample ++ [endPacket])) := by
  rw [send_trajectory_loop, send_trajectory_start, send_packet_confirm_eq]
  simp [hs, he, startPacket, endPacket, send_trajectory_end, send_packet_confirm_eq]

theorem loop_start_ok_end_fail (traj : List (Nat × Nat × Nat)) (n : Nat)
    (q : List Packet)
    (hs : confirmOK .TRAJECTORY_START q = true)
    (he : confirmOK .TRAJECTORY_END q.tail = false) :
    send_trajectory_loop traj (n + 1) q
      = ((send_trajectory_loop traj n q.tail.tail).1,
         (send_trajectory_loop traj n q.tail.tail).2.1,
         startPacket traj.length
           :: (traj.map send_trajectory_sample
             ++ endPacket :: (send_trajectory_loop traj n q.tail.tail).2.2)) := by
  rw [send_trajectory_loop, send_trajectory_start, send_packet_confirm_eq]
  simp [hs, he, startPacket, endPacket, send_trajectory_end, send_packet_confirm_eq]

theorem countKind_nonstart_samples (K : PacketTypes)
    (hK : floatBits PacketTypes.TRAJECTORY_SAMPLE.value ≠ floatBits K.value)
    (traj : List (Nat × Nat × Nat)) :
    countKind K (traj.map send_trajectory_sample) = 0 := by
  rw [countKind, List.countP_eq_zero]
  intro p hp
  rcases List.mem_map.mp hp with ⟨⟨x, y, z⟩, _, rfl⟩
  simpa [send_trajectory_sample, mkPacket] using hK

theorem countKind_nil (k : PacketTypes) : countKind k [] = 0 := rfl

theorem countKind_cons (k : PacketTypes) (p : Packet) (t : List Packet) :
    countKind k (p :: t)
      = countKind k t + (if p.f0 = floatBits k.value then 1 else 0) := by
  simp [countKind, List.countP_cons]

theorem countKind_append (k : PacketTypes) (t1 t2 : List Packet) :
    countKind k (t1 ++ t2) = countKind k t1 + countKind k t2 := by
  simp [countKind, List.countP_append]

theorem loop_retrySpec_eq (traj : List (Nat × Nat × Nat)) (n : Nat)
    (q : List Packet) :
    send_trajectory_loop traj n q = retrySpec traj n q := by
  induction n generalizing q with
  | zero => rfl
  | succ k ih =>
    rw [retrySpec]
    by_cases hs : confirmOK .TRAJECTORY_START q = true
    · by_cases he : confirmOK .TRAJECTORY_END q.tail = true
      · rw [loop_start_ok_end_ok traj k q hs he]
        simp [attemptSpec, send_packet_confirm_eq, hs, he, startPacket, endPacket]
      · rw [loop_start_ok_end_fail traj k q hs (by simpa using he), ih]
        simp [attemptSpec, send_packet_confirm_eq, hs, by simpa using he,
          startPacket, endPacket]
    · rw [loop_start_fail traj k q (by simpa using hs), ih]
      simp [attemptSpec, send_packet_confirm_eq, by simpa using hs, startPacket]

theorem countStarts_loop_le (traj : List (Nat × Nat × Nat)) (n : Nat)
    (q : List Packet) :
    countKind .TRAJECTORY_START (send_trajectory_loop traj n q).2.2 ≤ n := by
  have hse : (endPacket.f0 = floatBits PacketTypes.TRAJECTORY_START.value)
      = False := by
    simp only [eq_iff_iff, iff_false]
    decide
  have hss : ((startPacket traj.length).f0
      = floatBits PacketTypes.TRAJECTORY_START.value) = True := by
    simp [startPacket, mkPacket]
  induction n generalizing q with
  | zero => simp [send_trajectory_loop, countKind]
  | succ k ih =>
    by_cases hs : confirmOK .TRAJECTORY_START q = true
    · by_cases he : confirmOK .TRAJECTORY_END q.tail = true
      · rw [loop_start_ok_end_ok traj k q hs he, countKind_cons,
          countKind_append, countKind_nonstart_samples .TRAJECTORY_START
            (by decide) traj,
          countKind_cons, countKind_nil]
        simp only [hse, hss, ite_true, ite_false]
        omega
      · rw [loop_start_ok_end_fail traj k q hs (by simpa using he),
          countKind_cons, countKind_append, countKind_nonstart_samples
            .TRAJECTORY_START (by decide) traj,
          countKind_cons]
        have := ih q.tail.tail
        simp only [hse, hss, ite_true, ite_false]
        omega
    · rw [loop_start_fail traj k q (by simpa using hs), countKind_cons]
      have := ih q.tail
      simp only [hss, ite_true]
      omega

/-! ## Claims -/

/-- C1: for every packet kind and every payload of up to three doubles
(zero-filled when the payload is absent), decoding the 32-byte frame produced
by encoding that kind and payload yields back exactly the kind's wire code
(as a double) in field 0 and the payload doubles, bit for bit, in
fields 1..3. -/
theorem encode_decode_roundtrip (K : PacketTypes) (d : Option (Nat × Nat × Nat))
    (hd : payloadWF d) :
    unpack (pack (mkPacket K d)) = some (mkPacket K d)
    ∧ (mkPacket K d).f0 = floatBits K.value
    ∧ (mkPacket K d).f1 = (d.getD (0, 0, 0)).1
    ∧ (mkPacket K d).f2 = (d.getD (0, 0, 0)).2.1
    ∧ (mkPacket K d).f3 = (d.getD (0, 0, 0)).2.2 := by
  refine ⟨unpack_pack _ (mkPacket_wf K d hd), ?_⟩
  rcases d with _ | ⟨x, y, z⟩ <;> exact ⟨rfl, rfl, rfl, rfl⟩

theorem encode_decode_roundtrip_witness :
    payloadWF (some (5, 6, 7))
    ∧ (unpack (pack (mkPacket .TRAJECTORY_START (some (5, 6, 7))))
        = some (mkPacket .TRAJECTORY_START (some (5, 6, 7)))
      ∧ (mkPacket .TRAJECTORY_START (some (5, 6, 7))).f0
          = floatBits PacketTypes.TRAJECTORY_START.value
      ∧ (mkPacket .TRAJECTORY_START (some (5, 6, 7))).f1
          = ((some ((5 : Nat), (6 : Nat), (7 : Nat))).getD (0, 0, 0)).1
      ∧ (mkPacket .TRAJECTORY_START (some (5, 6, 7))).f2
          = ((some ((5 : Nat), (6 : Nat), (7 : Nat))).getD (0, 0, 0)).2.1
      ∧ (mkPacket .TRAJECTORY_START (some (5, 6, 7))).f3
          = ((some ((5 : Nat), (6 : Nat), (7 : Nat))).getD (0, 0, 0)).2.2) :=
  ⟨by decide, encode_decode_roundtrip .TRAJECTORY_START (some (5, 6, 7)) (by decide)⟩

/-- C2: a confirm-requiring `send_packet(K, data, confirm=True)` succeeds if
and only if a reply is dequeued from the inbound queue within the timeout
(modelled by the queue being nonempty) and that reply's field 0 equals `K`'s
wire code; a mismatched reply or no reply yields `False`, with exactly one
frame handed to the transport (no retry at this layer) and no distinction
between mismatch and timeout in the returned boolean. -/
theorem send_packet_confirm_iff (K : PacketTypes) (d : Option (Nat × Nat × Nat))
    (q : List Packet) :
    ((send_packet K d true q).1 = true
      ↔ ∃ c rest, q = c :: rest ∧ c.f0 = floatBits K.value)
    ∧ (send_packet K d true q).2.2 = [mkPacket K d] := by
  rcases q with _ | ⟨c, rest⟩
  · simp [send_packet, receive]
  · by_cases hc : c.f0 = floatBits K.value <;>
      simp [send_packet, receive, hc]

/-- C6: a trajectory of fewer than 3 points is rejected immediately: the
result is `False`, nothing is handed to the transport, and the inbound queue
is untouched. -/
theorem send_trajectory_too_short (traj : List (Nat × Nat × Nat))
    (q : List Packet) (h : traj.length < 3) :
    send_trajectory traj q = (false, q, []) := by
  simp [send_trajectory, h]

theorem send_trajectory_too_short_witness :
    ([(1, 1, 1), (2, 2, 2)] : List (Nat × Nat × Nat)).length < 3
    ∧ send_trajectory [(1, 1, 1), (2, 2, 2)] [⟨9, 9, 9, 9⟩]
        = (false, [⟨9, 9, 9, 9⟩], []) :=
  ⟨by decide, send_trajectory_too_short [(1, 1, 1), (2, 2, 2)] [⟨9, 9, 9, 9⟩]
    (by decide)⟩

/-- C7: with the receive socket open, a datagram whose byte length differs
from the 32-byte frame size fails to decode (`struct.error`, caught and
turned into `None`) and the receiver loop enqueues nothing, so the
application never observes it; a 32-byte datagram decodes to four doubles
and is the only kind of input ever enqueued. -/
theorem frame_size_invariant (s : PhantomState) (bs : List Nat)
    (q : List Packet) (hs : s.sockReceive = true) :
    (bs.length ≠ 32 → unpack bs = none
      ∧ (s.receiveRaw (.datagram bs)).2 = RecvOutcome.returns none
      ∧ receiverStep q (unpack bs) = q)
    ∧ (bs.length = 32 →
      ∃ p, unpack bs = some p
        ∧ (s.receiveRaw (.datagram bs)).2 = RecvOutcome.returns (some p)
        ∧ receiverStep q (unpack bs) = q ++ [p]) := by
  have hr : s.receiveRaw (.datagram bs) = (s, .returns (unpack bs)) := by
    simp [PhantomState.receiveRaw, hs]
  constructor
  · intro hlen
    have hu : unpack bs = none := by
      rw [unpack, if_neg]
      simpa [FRAME_BYTES] using hlen
    simp [hr, hu, receiverStep]
  · intro hlen
    have hu : unpack bs
        = some ⟨doubleOfBytes (bs.take 8),
            doubleOfBytes ((bs.drop 8).take 8),
            doubleOfBytes (((bs.drop 8).drop 8).take 8),
            doubleOfBytes ((((bs.drop 8).drop 8).drop 8).take 8)⟩ := by
      rw [unpack, if_pos (by simpa [FRAME_BYTES] using hlen)]
    exact ⟨_, hu, by simp [hr, hu], by simp [hu, receiverStep]⟩

theorem frame_size_invariant_witness :
    (⟨none, none, none, false, true, false, 0⟩ : PhantomState).sockReceive = true
    ∧ ([1, 2, 3] : List Nat).length ≠ 32
    ∧ unpack [1, 2, 3] = none
    ∧ ((⟨none, none, none, false, true, false, 0⟩ : PhantomState).receiveRaw
        (.datagram [1, 2, 3])).2 = RecvOutcome.returns none
    ∧ receiverStep [] (unpack [1, 2, 3]) = [] :=
  ⟨by decide, by decide,
    (frame_size_invariant ⟨none, none, none, false, true, false, 0⟩ [1, 2, 3] []
      (by decide)).1 (by decide)⟩

/-- The failing input for C8: a connected session — `running` set, both
sockets open — whose `recv` raises `ConnectionResetError`. -/
def c8State : PhantomState := ⟨some 1, some 2, some 3, true, true, true, 1⟩

/-- C8: code bug.  The claim (and the handler's own code, which calls
`self.disconnect()` and then `return None`) intends an internal disconnect
with the read returning `None` and no error escaping.  But `disconnect` runs
on the receiver thread: `Communicator.disconnect` clears `running` and then
joins the receiver thread from within itself, which raises `RuntimeError` —
so at a connected session the read raises instead of returning `None`, both
sockets stay open (the socket-closing code is never reached), and the error
propagates out of the receive path; only the clearing of `running` survives
of the claimed behaviour. -/
theorem peer_reset_join_raises :
    (c8State.receiveRaw .reset).2 = RecvOutcome.raises
    ∧ (c8State.receiveRaw .reset).1.sockSend = true
    ∧ (c8State.receiveRaw .reset).1.sockReceive = true
    ∧ (c8State.receiveRaw .reset).1.running = false := by
  decide

/-- C10: the confirmation wait in `send_packet` dequeues the next inbound
packet unconditionally: whatever its kind, the head of the inbound queue is
consumed; on a kind mismatch the result is `False` and the consumed packet is
discarded, so once it is gone from the queue a subsequent application
`receive()` cannot return it. -/
theorem confirm_wait_consumes_head (K : PacketTypes)
    (d : Option (Nat × Nat × Nat)) (c : Packet) (rest : List Packet) :
    (send_packet K d true (c :: rest)).2.1 = rest
    ∧ (c.f0 ≠ floatBits K.value → (send_packet K d true (c :: rest)).1 = false)
    ∧ (c ∉ rest →
        ∀ p, (receive (send_packet K d true (c :: rest)).2.1).1 = some p → p ≠ c) := by
  refine ⟨by simp [send_packet, receive], ?_, ?_⟩
  · intro h
    simp [send_packet, receive, h]
  · intro hcn p hp
    have hq : (send_packet K d true (c :: rest)).2.1 = rest := by
      simp [send_packet, receive]
    rw [hq] at hp
    rcases rest with _ | ⟨r, rs⟩
    · simp [receive] at hp
    · simp only [receive, Option.some.injEq] at hp
      intro hpc
      exact hcn (by rw [hp, hpc]; exact List.mem_cons_self c rs)

theorem confirm_wait_consumes_head_witness :
    (⟨1, 0, 0, 0⟩ : Packet).f0 ≠ floatBits PacketTypes.START.value
    ∧ (send_packet .START none true [⟨1, 0, 0, 0⟩]).2.1 = []
    ∧ (send_packet .START none true [⟨1, 0, 0, 0⟩]).1 = false :=
  ⟨by decide,
    (confirm_wait_consumes_head .START none ⟨1, 0, 0, 0⟩ []).1,
    (confirm_wait_consumes_head .START none ⟨1, 0, 0, 0⟩ []).2.1 (by decide)⟩

/-- C3: for a trajectory of at least 3 points, `send_trajectory` behaves
exactly as the spec-shaped `retrySpec` with `COMMUNICATION_RETRIES = 3`
attempts — each attempt sends a confirmed `TRAJECTORY_START` carrying the
sample count, retries the whole trajectory on start failure, on start success
streams every sample unconfirmed and sends a confirmed `TRAJECTORY_END`,
returns `True` as soon as an end-confirmation succeeds and `False` exactly
when all retries are exhausted — and the transmitted trace holds at most
`COMMUNICATION_RETRIES` `TRAJECTORY_START` packets (at most that many
attempts). -/
theorem send_trajectory_retry_policy (traj : List (Nat × Nat × Nat))
    (q : List Packet) (h3 : 3 ≤ traj.length) :
    send_trajectory traj q = retrySpec traj COMMUNICATION_RETRIES q
    ∧ countKind .TRAJECTORY_START (send_trajectory traj q).2.2
        ≤ COMMUNICATION_RETRIES := by
  have hng : ¬ traj.length < 3 := by omega
  rw [send_trajectory, if_neg hng]
  exact ⟨loop_retrySpec_eq traj COMMUNICATION_RETRIES q,
    countStarts_loop_le traj COMMUNICATION_RETRIES q⟩

theorem send_trajectory_retry_policy_witness :
    3 ≤ ([(1, 1, 1), (2, 2, 2), (3, 3, 3)] : List (Nat × Nat × Nat)).length
    ∧ (send_trajectory [(1, 1, 1), (2, 2, 2), (3, 3, 3)] []
        = retrySpec [(1, 1, 1), (2, 2, 2), (3, 3, 3)] COMMUNICATION_RETRIES []
      ∧ countKind .TRAJECTORY_START
          (send_trajectory [(1, 1, 1), (2, 2, 2), (3, 3, 3)] []).2.2
          ≤ COMMUNICATION_RETRIES) :=
  ⟨by decide, send_trajectory_retry_policy [(1, 1, 1), (2, 2, 2), (3, 3, 3)] []
    (by decide)⟩

/-- The concrete trajectory of the C4 counterexample. -/
def c4Traj : List (Nat × Nat × Nat) := [(1, 0, 0), (2, 0, 0), (3, 0, 0)]

/-- The C4 peer: the first `TRAJECTORY_START` confirmation wait meets a
packet of the wrong kind (field 0 is not the `TRAJECTORY_START` code), and
every later confirmation wait meets a matching reply. -/
def c4Queue : List Packet :=
  [⟨0, 0, 0, 0⟩,
   ⟨floatBits PacketTypes.TRAJECTORY_START.value, 0, 0, 0⟩,
   ⟨floatBits PacketTypes.TRAJECTORY_END.value, 0, 0, 0⟩]

/-- C4 counterexample: with a peer that fails the first `TRAJECTORY_START`
confirmation and confirms everything afterwards, `send_trajectory` succeeds,
two attempts ran (two `TRAJECTORY_START` packets in the trace), yet the trace
carries only one attempt's worth of samples (3, not 6) and a single
`TRAJECTORY_END` — the failed attempt contributed its `TRAJECTORY_START`
only, not the full start/sample/end sequence the claim asserts for every
attempt. -/
theorem failed_attempt_contributes_only_start_cx :
    (send_trajectory c4Traj c4Queue).1 = true
    ∧ countKind .TRAJECTORY_START (send_trajectory c4Traj c4Queue).2.2 = 2
    ∧ countKind .TRAJECTORY_SAMPLE (send_trajectory c4Traj c4Queue).2.2 = 3
    ∧ countKind .TRAJECTORY_END (send_trajectory c4Traj c4Queue).2.2 = 1 := by
  decide

/-- C4 (amended): given a peer that fails the confirmation on the first
`TRAJECTORY_START` attempt and confirms every later attempt,
`send_trajectory` succeeds within `RETRY_COUNT` attempts; the failed attempt
contributes only its `TRAJECTORY_START` packet to the transmitted trace,
and the successful attempt contributes the full start/samples/end
sequence. -/
theorem send_trajectory_retry_then_succeed (traj : List (Nat × Nat × Nat))
    (bad s e : Packet) (rest : List Packet)
    (h3 : 3 ≤ traj.length)
    (hbad : bad.f0 ≠ floatBits PacketTypes.TRAJECTORY_START.value)
    (hs : s.f0 = floatBits PacketTypes.TRAJECTORY_START.value)
    (he : e.f0 = floatBits PacketTypes.TRAJECTORY_END.value) :
    send_trajectory traj (bad :: s :: e :: rest)
      = (true, rest,
         startPacket traj.length :: startPacket traj.length
           :: (traj.map send_trajectory_sample ++ [endPacket]))
    ∧ countKind .TRAJECTORY_START
        (send_trajectory traj (bad :: s :: e :: rest)).2.2 = 2
    ∧ countKind .TRAJECTORY_END
        (send_trajectory traj (bad :: s :: e :: rest)).2.2 = 1 := by
  have hng : ¬ traj.length < 3 := by omega
  have hcb : confirmOK .TRAJECTORY_START (bad :: s :: e :: rest) = false := by
    simp [confirmOK, hbad]
  have hcs : confirmOK .TRAJECTORY_START (s :: e :: rest) = true := by
    simp [confirmOK, hs]
  have hce : confirmOK .TRAJECTORY_END (e :: rest) = true := by
    simp [confirmOK, he]
  have htr : send_trajectory traj (bad :: s :: e :: rest)
      = (true, rest,
         startPacket traj.length :: startPacket traj.length
           :: (traj.map send_trajectory_sample ++ [endPacket])) := by
    rw [send_trajectory, if_neg hng]
    show send_trajectory_loop traj 3 (bad :: s :: e :: rest) = _
    rw [loop_start_fail traj 2 _ hcb]
    show (_ : Bool × List Packet × List Packet) = _
    rw [List.tail_cons, loop_start_ok_end_ok traj 1 _ hcs (by simpa using hce)]
    rfl
  have c1 : ((startPacket traj.length).f0
      = floatBits PacketTypes.TRAJECTORY_START.value) = True := by
    simp [startPacket, mkPacket]
  have c2 : (endPacket.f0 = floatBits PacketTypes.TRAJECTORY_START.value)
      = False := by
    simp only [eq_iff_iff, iff_false]
    decide
  have c3 : ((startPacket traj.length).f0
      = floatBits PacketTypes.TRAJECTORY_END.value) = False := by
    simp only [eq_iff_iff, iff_false, startPacket, mkPacket]
    decide
  have c4 : (endPacket.f0 = floatBits PacketTypes.TRAJECTORY_END.value)
      = True := by
    simp [endPacket, mkPacket]
  refine ⟨htr, ?_, ?_⟩ <;> rw [htr]
  · rw [countKind_cons, countKind_cons, countKind_append, countKind_cons,
      countKind_nil, countKind_nonstart_samples _ (by decide) traj]
    simp only [c1, c2, ite_true, ite_false]
  · rw [countKind_cons, countKind_cons, countKind_append, countKind_cons,
      countKind_nil, countKind_nonstart_samples _ (by decide) traj]
    simp only [c3, c4, ite_true, ite_false]

theorem send_trajectory_retry_then_succeed_witness :
    (3 ≤ c4Traj.length
      ∧ (⟨0, 0, 0, 0⟩ : Packet).f0 ≠ floatBits PacketTypes.TRAJECTORY_START.value
      ∧ (⟨floatBits PacketTypes.TRAJECTORY_START.value, 0, 0, 0⟩ : Packet).f0
          = floatBits PacketTypes.TRAJECTORY_START.value
      ∧ (⟨floatBits PacketTypes.TRAJECTORY_END.value, 0, 0, 0⟩ : Packet).f0
          = floatBits PacketTypes.TRAJECTORY_END.value)
    ∧ (send_trajectory c4Traj c4Queue
        = (true, [],
           startPacket c4Traj.length :: startPacket c4Traj.length
             :: (c4Traj.map send_trajectory_sample ++ [endPacket]))
      ∧ countKind .TRAJECTORY_START (send_trajectory c4Traj c4Queue).2.2 = 2
      ∧ countKind .TRAJECTORY_END (send_trajectory c4Traj c4Queue).2.2 = 1) :=
  ⟨⟨by decide, by decide, rfl, rfl⟩,
    send_trajectory_retry_then_succeed c4Traj ⟨0, 0, 0, 0⟩
      ⟨floatBits PacketTypes.TRAJECTORY_START.value, 0, 0, 0⟩
      ⟨floatBits PacketTypes.TRAJECTORY_END.value, 0, 0, 0⟩ []
      (by decide) (by decide) rfl rfl⟩

/-- C5: with a peer that confirms every confirm-requiring packet (its
confirmations queued in order) and a trajectory of `n ≥ 3` points,
`send_trajectory` succeeds and hands the transport exactly one
`TRAJECTORY_START` whose field 1 carries the sample count `n`, then the `n`
`TRAJECTORY_SAMPLE` packets in the order of the input list (one per supplied
point, no loop-closing point added by `send_trajectory` itself), then one
`TRAJECTORY_END`. -/
theorem send_trajectory_happy_path (traj : List (Nat × Nat × Nat))
    (s e : Packet) (rest : List Packet)
    (h3 : 3 ≤ traj.length)
    (hs : s.f0 = floatBits PacketTypes.TRAJECTORY_START.value)
    (he : e.f0 = floatBits PacketTypes.TRAJECTORY_END.value) :
    send_trajectory traj (s :: e :: rest)
      = (true, rest,
         startPacket traj.length
           :: (traj.map send_trajectory_sample ++ [endPacket]))
    ∧ (startPacket traj.length).f1 = floatBits traj.length
    ∧ (traj.map send_trajectory_sample).length = traj.length := by
  have hng : ¬ traj.length < 3 := by omega
  have hcs : confirmOK .TRAJECTORY_START (s :: e :: rest) = true := by
    simp [confirmOK, hs]
  have hce : confirmOK .TRAJECTORY_END (e :: rest) = true := by
    simp [confirmOK, he]
  refine ⟨?_, rfl, by simp⟩
  rw [send_trajectory, if_neg hng]
  show send_trajectory_loop traj 3 (s :: e :: rest) = _
  rw [loop_start_ok_end_ok traj 2 _ hcs (by simpa using hce)]
  rfl

theorem send_trajectory_happy_path_witness :
    (3 ≤ ([(1, 1, 0), (2, 2, 0), (3, 3, 0), (4, 4, 0)] :
        List (Nat × Nat × Nat)).length
      ∧ (⟨floatBits PacketTypes.TRAJECTORY_START.value, 0, 0, 0⟩ : Packet).f0
          = floatBits PacketTypes.TRAJECTORY_START.value
      ∧ (⟨floatBits PacketTypes.TRAJECTORY_END.value, 0, 0, 0⟩ : Packet).f0
          = floatBits PacketTypes.TRAJECTORY_END.value)
    ∧ (send_trajectory [(1, 1, 0), (2, 2, 0), (3, 3, 0), (4, 4, 0)]
        [⟨floatBits PacketTypes.TRAJECTORY_START.value, 0, 0, 0⟩,
         ⟨floatBits PacketTypes.TRAJECTORY_END.value, 0, 0, 0⟩]
        = (true, [],
           startPacket ([(1, 1, 0), (2, 2, 0), (3, 3, 0), (4, 4, 0)] :
              List (Nat × Nat × Nat)).length
             :: (([(1, 1, 0), (2, 2, 0), (3, 3, 0), (4, 4, 0)] :
                List (Nat × Nat × Nat)).map send_trajectory_sample
               ++ [endPacket]))
      ∧ (startPacket ([(1, 1, 0), (2, 2, 0), (3, 3, 0), (4, 4, 0)] :
            List (Nat × Nat × Nat)).length).f1
          = floatBits ([(1, 1, 0), (2, 2, 0), (3, 3, 0), (4, 4, 0)] :
            List (Nat × Nat × Nat)).length
      ∧ (([(1, 1, 0), (2, 2, 0), (3, 3, 0), (4, 4, 0)] :
            List (Nat × Nat × Nat)).map send_trajectory_sample).length
          = ([(1, 1, 0), (2, 2, 0), (3, 3, 0), (4, 4, 0)] :
            List (Nat × Nat × Nat)).length) :=
  ⟨⟨by decide, rfl, rfl⟩,
    send_trajectory_happy_path [(1, 1, 0), (2, 2, 0), (3, 3, 0), (4, 4, 0)]
      ⟨floatBits PacketTypes.TRAJECTORY_START.value, 0, 0, 0⟩
      ⟨floatBits PacketTypes.TRAJECTORY_END.value, 0, 0, 0⟩ []
      (by decide) rfl rfl⟩

/-- The concrete session state of the C9 counterexample: connected (both
sockets open, threads running) with all three connection fields set. -/
def c9State : PhantomState := ⟨some 1, some 2, some 3, true, true, true, 1⟩

/-- C9 counterexample: with both sockets open and the peer IP already set, a
second `connect` call carrying a new IP overwrites the already-set field —
the update is not limited to unset connection fields. -/
theorem connect_updates_set_field_cx :
    c9State.ip = some 1
    ∧ c9State.sockSend = true ∧ c9State.sockReceive = true
    ∧ (c9State.connect (some 9) none none).ip = some 9 := by
  decide

/-- C9 (amended): `connect` and `disconnect` are idempotent — a second
`connect` while a socket is open performs no socket creation, no thread
start and no change to `running`, updating exactly the connection fields for
which a (non-`None`) argument was supplied, overwriting set ones; a no-argument
`connect` repeated is a strict no-op; and `disconnect` of a disconnected
session leaves the state unchanged. -/
theorem lifecycle_idempotent (s : PhantomState) (ip ps pr : Option Nat)
    (hopen : s.sockSend = true ∨ s.sockReceive = true) :
    s.connect ip ps pr
      = { s with
          ip := match ip with | some v => some v | none => s.ip
          portSend := match ps with | some v => some v | none => s.portSend
          portReceive := match pr with | some v => some v | none => s.portReceive }
    ∧ (s.connect ip ps pr).sockSend = s.sockSend
    ∧ (s.connect ip ps pr).sockReceive = s.sockReceive
    ∧ (s.connect ip ps pr).running = s.running
    ∧ (s.connect ip ps pr).threadStarts = s.threadStarts
    ∧ s.disconnect.disconnect = s.disconnect
    ∧ (s.connect none none none).connect none none none
        = s.connect none none none := by
  have hcon : s.connect ip ps pr
      = { s with
          ip := match ip with | some v => some v | none => s.ip
          portSend := match ps with | some v => some v | none => s.portSend
          portReceive :=
            match pr with | some v => some v | none => s.portReceive } := by
    rcases hopen with h | h <;> simp [PhantomState.connect, h]
  refine ⟨hcon, by rw [hcon], by rw [hcon], by rw [hcon], by rw [hcon], ?_, ?_⟩
  · by_cases h : s.running <;> simp [PhantomState.disconnect, h]
  · by_cases hss : s.sockSend <;> by_cases hsr : s.sockReceive <;>
      by_cases hr : s.running <;>
      simp [PhantomState.connect, hss, hsr, hr]

theorem lifecycle_idempotent_witness :
    (c9State.sockSend = true ∨ c9State.sockReceive = true)
    ∧ (c9State.connect (some 9) none none
        = { c9State with ip := some 9 }
      ∧ (c9State.connect (some 9) none none).sockSend = c9State.sockSend
      ∧ (c9State.connect (some 9) none none).sockReceive = c9State.sockReceive
      ∧ (c9State.connect (some 9) none none).running = c9State.running
      ∧ (c9State.connect (some 9) none none).threadStarts = c9State.threadStarts
      ∧ c9State.disconnect.disconnect = c9State.disconnect
      ∧ (c9State.connect none none none).connect none none none
          = c9State.connect none none none) :=
  ⟨Or.inl rfl, lifecycle_idempotent c9State (some 9) none none (Or.inl rfl)⟩

end RV
